import Mathlib

/-!
Shallow embedding of `src/handler/sessions/limiter.rs` (the `SessionLimiter`
session admission controller) and proofs of the specification claims.

Modelling choices:
* `NodeAddress` is an opaque identity with equality and hashing; we embed it
  as a type parameter `α` with `DecidableEq α`.  `HashSet<NodeAddress>` is
  embedded as `Finset α` (insertion of a present key and removal of an absent
  key are no-ops, exactly as for `HashSet`).
* The `futures::channel::mpsc::Receiver<NodeAddress>` is embedded as its
  observable state at the consumer: the FIFO list of pending messages plus a
  closed flag.  `try_next` yields `Ok(Some(m))` when a message is pending,
  `Ok(None)` when the channel is closed and empty, and `Err(_)` when it is
  open and empty; the three outcomes are the three constructors of
  `TryNextResult`.
* `Result<(), Discv5Error>` is embedded as `Except Discv5Error Unit`.
  Only the variants of `Discv5Error` relevant at this interface are embedded;
  `LimitSessionsUnreachableEnr` is the single variant this component produces.
-/

namespace Limiter

/-- Outcome of `try_next` on an mpsc receiver: a pending message
(`Ok(Some(m))`), an open-but-empty channel (`Err(TryRecvError)`), or a
closed-and-drained channel (`Ok(None)`). -/
inductive TryNextResult (α : Type) where
  | msg (a : α)
  | empty
  | closedEmpty
  deriving DecidableEq, Repr

/-- Consumer-side state of the `futures::channel::mpsc` receiver of expired
sessions: messages pending in FIFO order, and whether the sender side has
been dropped (channel closed). -/
structure Channel (α : Type) where
  pending : List α
  closed : Bool
  deriving DecidableEq, Repr

/-- `Receiver::try_next`: pops the next pending message if any; otherwise
reports closed-empty or open-empty without blocking. -/
def tryNext {α : Type} (c : Channel α) : TryNextResult α × Channel α :=
  match c.pending with
  | a :: rest => (TryNextResult.msg a, { c with pending := rest })
  | [] => if c.closed then (TryNextResult.closedEmpty, c) else (TryNextResult.empty, c)

/-- Embedding of the subset of `Discv5Error` visible at this component's
interface.  `LimitSessionsUnreachableEnr` is the budget-exhausted rejection;
the other listed variants exist in the crate's error enum but are never
produced by the limiter. -/
inductive Discv5Error where
  | LimitSessionsUnreachableEnr
  | SessionNotEstablished
  | ServiceNotStarted
  deriving DecidableEq, Repr

/-- Embedding of an ENR at this component's interface: the limiter reads
exactly the two advertised UDP socket fields (`udp4_socket()` /
`udp6_socket()`); socket addresses themselves are opaque, embedded as `Nat`. -/
structure Enr where
  udp4_socket : Option Nat
  udp6_socket : Option Nat
  deriving DecidableEq, Repr

/-- The reachability test performed by `track_sessions_unreachable_enr`:
`enr.udp4_socket().is_some() || enr.udp6_socket().is_some()`. -/
def Enr.reachable (enr : Enr) : Bool :=
  enr.udp4_socket.isSome || enr.udp6_socket.isSome

/-- The `SessionLimiter` struct: the tracked set of unreachable-peer
identities, the receiver of expired sessions, and the fixed limit. -/
structure SessionLimiter (α : Type) [DecidableEq α] where
  sessions_unreachable_enr_tracker : Finset α
  rx_expired_sessions : Channel α
  limit : Nat

variable {α : Type} [DecidableEq α]

instance {ε σ : Type} [DecidableEq ε] [DecidableEq σ] :
    DecidableEq (Except ε σ) := fun a b =>
  match a, b with
  | Except.ok x, Except.ok y => decidable_of_iff (x = y) (by simp)
  | Except.error x, Except.error y => decidable_of_iff (x = y) (by simp)
  | Except.ok _, Except.error _ => isFalse (by simp)
  | Except.error _, Except.ok _ => isFalse (by simp)

instance : DecidableEq (SessionLimiter α) := fun s t =>
  decidable_of_iff
    (s.sessions_unreachable_enr_tracker = t.sessions_unreachable_enr_tracker
      ∧ s.rx_expired_sessions = t.rx_expired_sessions ∧ s.limit = t.limit)
    (by cases s; cases t; simp)

/-- `SessionLimiter::new`: empty tracker, the given receiver and limit. -/
def SessionLimiter.new (rx_expired_sessions : Channel α) (limit : Nat) :
    SessionLimiter α :=
  { sessions_unreachable_enr_tracker := ∅
    rx_expired_sessions := rx_expired_sessions
    limit := limit }

/-- A step of `tryNext` that returns a message strictly shrinks the pending
list. -/
theorem tryNext_msg_length {c c' : Channel α} {a : α}
    (h : tryNext c = (TryNextResult.msg a, c')) :
    c'.pending.length < c.pending.length := by
  unfold tryNext at h
  cases hp : c.pending with
  | nil =>
    rw [hp] at h
    by_cases hc : c.closed <;> simp [hc] at h
  | cons b rest =>
    rw [hp] at h
    simp only [Prod.mk.injEq] at h
    rw [← h.2]
    simp

/-- `SessionLimiter::drain_expired_sessions_buffer`: repeatedly `try_next`
the expiry receiver while it yields `Ok(Some(_))`, removing each received
identity from the tracker; stops on `Err(_)` (open, empty) or `Ok(None)`
(closed). -/
def SessionLimiter.drain_expired_sessions_buffer (s : SessionLimiter α) :
    SessionLimiter α :=
  match h : tryNext s.rx_expired_sessions with
  | (TryNextResult.msg a, ch') =>
      SessionLimiter.drain_expired_sessions_buffer
        { s with
          sessions_unreachable_enr_tracker :=
            s.sessions_unreachable_enr_tracker.erase a
          rx_expired_sessions := ch' }
  | (TryNextResult.empty, ch') => { s with rx_expired_sessions := ch' }
  | (TryNextResult.closedEmpty, ch') => { s with rx_expired_sessions := ch' }
termination_by s.rx_expired_sessions.pending.length
decreasing_by
  exact tryNext_msg_length h

/-- `SessionLimiter::track_sessions_unreachable_enr`: drain the expiry
buffer, admit reachable peers unconditionally, reject unreachable peers at
or above the limit with `LimitSessionsUnreachableEnr`, otherwise insert the
peer into the tracker and admit. -/
def SessionLimiter.track_sessions_unreachable_enr (s : SessionLimiter α)
    (node_address : α) (enr : Enr) :
    Except Discv5Error Unit × SessionLimiter α :=
  let s := s.drain_expired_sessions_buffer
  if enr.reachable then
    (Except.ok (), s)
  else if s.limit ≤ s.sessions_unreachable_enr_tracker.card then
    (Except.error Discv5Error.LimitSessionsUnreachableEnr, s)
  else
    (Except.ok (),
      { s with
        sessions_unreachable_enr_tracker :=
          insert node_address s.sessions_unreachable_enr_tracker })

/-- `SessionLimiter::untrack_session`: remove the address from the tracker
(no-op if absent); never fails. -/
def SessionLimiter.untrack_session (s : SessionLimiter α) (node_address : α) :
    SessionLimiter α :=
  { s with
    sessions_unreachable_enr_tracker :=
      s.sessions_unreachable_enr_tracker.erase node_address }

/-- Running `admit-or-reject` over a list of `(node_address, enr)` attempts,
threading the limiter state; embeds "a sequence of
`track_sessions_unreachable_enr` calls". -/
def runCalls (s : SessionLimiter α) : List (α × Enr) → SessionLimiter α
  | [] => s
  | (a, enr) :: rest => runCalls (s.track_sessions_unreachable_enr a enr).2 rest

/-- Folding `Finset.erase` over a list only shrinks the set. -/
theorem foldl_erase_subset (p : List α) (t : Finset α) :
    p.foldl Finset.erase t ⊆ t := by
  induction p generalizing t with
  | nil => exact fun x hx => hx
  | cons a rest ih =>
    exact fun x hx => Finset.erase_subset a t (ih (t.erase a) hx)

/-- Every identity occurring in the list is absent from the fold result. -/
theorem not_mem_foldl_erase (p : List α) (t : Finset α) (x : α)
    (hx : x ∈ p) : x ∉ p.foldl Finset.erase t := by
  induction p generalizing t with
  | nil => cases hx
  | cons a rest ih =>
    rcases List.mem_cons.mp hx with h | h
    · subst h
      by_cases hr : x ∈ rest
      · exact ih (t.erase x) hr
      · intro hmem
        exact (Finset.not_mem_erase x t) (foldl_erase_subset rest (t.erase x) hmem)
    · exact ih (t.erase a) h

/-- Folding erase over the empty set stays empty. -/
theorem foldl_erase_empty (p : List α) :
    p.foldl Finset.erase (∅ : Finset α) = ∅ := by
  induction p with
  | nil => rfl
  | cons a rest ih => simpa using ih

/-- Closed form of the drain loop: it erases every pending identity from the
tracker in FIFO order, empties the pending buffer, and leaves the closed
flag and the limit untouched. -/
theorem drain_eq (p : List α) (t : Finset α) (cl : Bool) (lim : Nat) :
    SessionLimiter.drain_expired_sessions_buffer ⟨t, ⟨p, cl⟩, lim⟩ =
      ⟨p.foldl Finset.erase t, ⟨[], cl⟩, lim⟩ := by
  induction p generalizing t with
  | nil =>
    rw [SessionLimiter.drain_expired_sessions_buffer]
    cases cl <;> simp [tryNext]
  | cons a rest ih =>
    rw [SessionLimiter.drain_expired_sessions_buffer]
    simp only [tryNext]
    exact ih (t.erase a)

/-- `drain_eq` for an arbitrary limiter state, via structure eta. -/
theorem drain_eq_state (s : SessionLimiter α) :
    s.drain_expired_sessions_buffer =
      ⟨s.rx_expired_sessions.pending.foldl Finset.erase
          s.sessions_unreachable_enr_tracker,
        ⟨[], s.rx_expired_sessions.closed⟩, s.limit⟩ := by
  obtain ⟨t, ⟨p, cl⟩, lim⟩ := s
  exact drain_eq p t cl lim

/-- Closed form of `track_sessions_unreachable_enr` in terms of the drained
tracker. -/
theorem track_eq (s : SessionLimiter α) (a : α) (enr : Enr) :
    s.track_sessions_unreachable_enr a enr =
      if enr.reachable then
        (Except.ok (),
          ⟨s.rx_expired_sessions.pending.foldl Finset.erase
              s.sessions_unreachable_enr_tracker,
            ⟨[], s.rx_expired_sessions.closed⟩, s.limit⟩)
      else if s.limit ≤ (s.rx_expired_sessions.pending.foldl Finset.erase
          s.sessions_unreachable_enr_tracker).card then
        (Except.error Discv5Error.LimitSessionsUnreachableEnr,
          ⟨s.rx_expired_sessions.pending.foldl Finset.erase
              s.sessions_unreachable_enr_tracker,
            ⟨[], s.rx_expired_sessions.closed⟩, s.limit⟩)
      else
        (Except.ok (),
          ⟨insert a (s.rx_expired_sessions.pending.foldl Finset.erase
              s.sessions_unreachable_enr_tracker),
            ⟨[], s.rx_expired_sessions.closed⟩, s.limit⟩) := by
  unfold SessionLimiter.track_sessions_unreachable_enr
  rw [drain_eq_state]

/-- One `admit-or-reject` call made with an empty expiry buffer preserves
the bound invariant, the empty buffer, and the configured limit. -/
theorem track_preserves_inv (s : SessionLimiter α) (a : α) (enr : Enr)
    (hpend : s.rx_expired_sessions.pending = [])
    (hinv : s.sessions_unreachable_enr_tracker.card ≤ s.limit) :
    (s.track_sessions_unreachable_enr a enr).2.rx_expired_sessions.pending = []
      ∧ (s.track_sessions_unreachable_enr
          a enr).2.sessions_unreachable_enr_tracker.card ≤ s.limit
      ∧ (s.track_sessions_unreachable_enr a enr).2.limit = s.limit := by
  rw [track_eq]
  simp only [hpend, List.foldl_nil]
  split_ifs with hre hc
  · exact ⟨rfl, hinv, rfl⟩
  · exact ⟨rfl, hinv, rfl⟩
  · refine ⟨rfl, ?_, rfl⟩
    calc (insert a s.sessions_unreachable_enr_tracker).card
        ≤ s.sessions_unreachable_enr_tracker.card + 1 := Finset.card_insert_le a _
      _ ≤ s.limit := Nat.succ_le_of_lt (Nat.lt_of_not_le hc)

/-- A sequence of `admit-or-reject` calls starting from an empty expiry
buffer keeps the tracker within the limit, keeps the buffer empty and
keeps the limit unchanged. -/
theorem runCalls_inv (calls : List (α × Enr)) :
    ∀ s : SessionLimiter α, s.rx_expired_sessions.pending = [] →
    s.sessions_unreachable_enr_tracker.card ≤ s.limit →
    (runCalls s calls).sessions_unreachable_enr_tracker.card ≤ s.limit
      ∧ (runCalls s calls).limit = s.limit
      ∧ (runCalls s calls).rx_expired_sessions.pending = [] := by
  induction calls with
  | nil => exact fun s h1 h2 => ⟨h2, rfl, h1⟩
  | cons c rest ih =>
    intro s h1 h2
    obtain ⟨a, enr⟩ := c
    obtain ⟨hp, hc, hl⟩ := track_preserves_inv s a enr h1 h2
    have hrec := ih (s.track_sessions_unreachable_enr a enr).2 hp (hl ▸ hc)
    rw [hl] at hrec
    exact ⟨hrec.1, hrec.2.1, hrec.2.2⟩

/-- C1: for every state satisfying the invariant `card ≤ limit` with no
expiry messages pending, any sequence of `track_sessions_unreachable_enr`
calls for unreachable peers keeps the tracked set within `limit`; and
whenever the tracker already holds `limit` members, a call for an
unreachable peer returns `LimitSessionsUnreachableEnr` and leaves the
tracked set unchanged. -/
theorem claim_C1 (s : SessionLimiter α) (calls : List (α × Enr)) (a : α)
    (enr : Enr)
    (hpend : s.rx_expired_sessions.pending = [])
    (hinv : s.sessions_unreachable_enr_tracker.card ≤ s.limit)
    (hcalls : ∀ c ∈ calls, Enr.reachable c.2 = false) :
    (runCalls s calls).sessions_unreachable_enr_tracker.card ≤ s.limit
      ∧ (s.sessions_unreachable_enr_tracker.card = s.limit →
          enr.reachable = false →
          (s.track_sessions_unreachable_enr a enr).1 =
              Except.error Discv5Error.LimitSessionsUnreachableEnr
            ∧ (s.track_sessions_unreachable_enr
                a enr).2.sessions_unreachable_enr_tracker =
                s.sessions_unreachable_enr_tracker) := by
  refine ⟨(runCalls_inv calls s hpend hinv).1, fun hfull hr => ⟨?_, ?_⟩⟩ <;>
  · rw [track_eq]
    simp [hpend, hr, hfull]

/-- Witness for C1 at two concrete states: an empty limit-2 tracker run
through three unreachable admissions (two inserted, the third rejected)
stays within the bound, and a full limit-1 tracker rejects unreachable
peer 2 unchanged. -/
theorem claim_C1_witness :
    ((runCalls (⟨∅, ⟨[], false⟩, 2⟩ : SessionLimiter Nat)
        [(0, ⟨none, none⟩), (1, ⟨none, none⟩),
          (2, ⟨none, none⟩)]).sessions_unreachable_enr_tracker.card ≤ 2)
      ∧ (((⟨{0}, ⟨[], false⟩, 1⟩ :
            SessionLimiter Nat).track_sessions_unreachable_enr
            2 ⟨none, none⟩).1 =
          Except.error Discv5Error.LimitSessionsUnreachableEnr
        ∧ ((⟨{0}, ⟨[], false⟩, 1⟩ :
            SessionLimiter Nat).track_sessions_unreachable_enr
            2 ⟨none, none⟩).2.sessions_unreachable_enr_tracker = {0}) :=
  ⟨(claim_C1 ⟨∅, ⟨[], false⟩, 2⟩
      [(0, ⟨none, none⟩), (1, ⟨none, none⟩), (2, ⟨none, none⟩)]
      9 ⟨none, none⟩ (by decide) (by decide) (by decide)).1,
    (claim_C1 ⟨{0}, ⟨[], false⟩, 1⟩ [] 2 ⟨none, none⟩
      (by decide) (by decide) (by decide)).2 (by decide) (by decide)⟩

/-- C2: with the tracker at its limit and an expiry message for tracked
identity `b` pending on the channel, `track_sessions_unreachable_enr` for a
new unreachable identity `a` drains `b` out first and then succeeds,
inserting `a`. -/
theorem claim_C2 (s : SessionLimiter α) (a b : α) (enr : Enr)
    (hpend : s.rx_expired_sessions.pending = [b])
    (hb : b ∈ s.sessions_unreachable_enr_tracker)
    (hfull : s.sessions_unreachable_enr_tracker.card = s.limit)
    (ha : a ∉ s.sessions_unreachable_enr_tracker)
    (hr : enr.reachable = false) :
    (s.track_sessions_unreachable_enr a enr).1 = Except.ok ()
      ∧ (s.track_sessions_unreachable_enr
          a enr).2.sessions_unreachable_enr_tracker =
          insert a (s.sessions_unreachable_enr_tracker.erase b)
      ∧ b ∉ (s.track_sessions_unreachable_enr
          a enr).2.sessions_unreachable_enr_tracker := by
  have hpos : 0 < s.limit := hfull ▸ Finset.card_pos.mpr ⟨b, hb⟩
  have hlt : (s.sessions_unreachable_enr_tracker.erase b).card < s.limit := by
    rw [Finset.card_erase_of_mem hb, hfull]
    exact Nat.sub_lt hpos Nat.one_pos
  have hnab : b ≠ a := fun h => ha (h ▸ hb)
  rw [track_eq]
  simp only [hpend, List.foldl_cons, List.foldl_nil]
  rw [if_neg (by simp [hr]), if_neg (Nat.not_le.mpr hlt)]
  refine ⟨rfl, rfl, ?_⟩
  simp only [Finset.mem_insert, Finset.mem_erase]
  rintro (h | ⟨h, _⟩)
  · exact hnab h
  · exact h rfl

/-- Witness for C2: limit 1, tracker `{5}`, expiry for 5 pending, admitting
unreachable peer 7. -/
theorem claim_C2_witness :
    (let s : SessionLimiter Nat := ⟨{5}, ⟨[5], false⟩, 1⟩
    (s.track_sessions_unreachable_enr 7 ⟨none, none⟩).1 = Except.ok ()
      ∧ (s.track_sessions_unreachable_enr
          7 ⟨none, none⟩).2.sessions_unreachable_enr_tracker =
          insert 7 (({5} : Finset Nat).erase 5)
      ∧ 5 ∉ (s.track_sessions_unreachable_enr
          7 ⟨none, none⟩).2.sessions_unreachable_enr_tracker) :=
  claim_C2 ⟨{5}, ⟨[5], false⟩, 1⟩ 7 5 ⟨none, none⟩
    (by decide) (by decide) (by decide) (by decide) (by decide)

/-- C3: a peer whose ENR advertises a UDP4 or UDP6 socket is always
admitted; its identity is never inserted into the tracked set (the call can
only shrink the tracker, via the drain step). -/
theorem claim_C3 (s : SessionLimiter α) (a : α) (enr : Enr)
    (hr : enr.reachable = true) :
    (s.track_sessions_unreachable_enr a enr).1 = Except.ok ()
      ∧ (s.track_sessions_unreachable_enr
          a enr).2.sessions_unreachable_enr_tracker ⊆
          s.sessions_unreachable_enr_tracker
      ∧ (a ∉ s.sessions_unreachable_enr_tracker →
          a ∉ (s.track_sessions_unreachable_enr
            a enr).2.sessions_unreachable_enr_tracker) := by
  rw [track_eq, if_pos hr]
  refine ⟨rfl, foldl_erase_subset _ _, fun ha hmem => ha ?_⟩
  exact foldl_erase_subset _ _ hmem

/-- Witness for C3: a reachable peer at a tracker already over any bound. -/
theorem claim_C3_witness :
    (let s : SessionLimiter Nat := ⟨{1, 2, 3}, ⟨[], false⟩, 0⟩
    (s.track_sessions_unreachable_enr 9 ⟨some 4, none⟩).1 = Except.ok ()
      ∧ (s.track_sessions_unreachable_enr
          9 ⟨some 4, none⟩).2.sessions_unreachable_enr_tracker ⊆
          ({1, 2, 3} : Finset Nat)
      ∧ (9 ∉ ({1, 2, 3} : Finset Nat) →
          9 ∉ (s.track_sessions_unreachable_enr
            9 ⟨some 4, none⟩).2.sessions_unreachable_enr_tracker)) :=
  claim_C3 ⟨{1, 2, 3}, ⟨[], false⟩, 0⟩ 9 ⟨some 4, none⟩ (by decide)

/-- C4: `track_sessions_unreachable_enr` returns an error exactly when the
peer is unreachable and the drained tracker is at or above the limit, and
that error is always `LimitSessionsUnreachableEnr`. -/
theorem claim_C4 (s : SessionLimiter α) (a : α) (enr : Enr)
    (e : Discv5Error) :
    (s.track_sessions_unreachable_enr a enr).1 = Except.error e ↔
      (enr.reachable = false
        ∧ s.limit ≤ (s.rx_expired_sessions.pending.foldl Finset.erase
            s.sessions_unreachable_enr_tracker).card
        ∧ e = Discv5Error.LimitSessionsUnreachableEnr) := by
  rw [track_eq]
  by_cases hre : enr.reachable = true
  · rw [if_pos hre]
    simp [hre]
  · rw [if_neg hre]
    simp only [Bool.not_eq_true] at hre
    by_cases hc : s.limit ≤ (s.rx_expired_sessions.pending.foldl Finset.erase
        s.sessions_unreachable_enr_tracker).card
    · rw [if_pos hc]
      simp [hre, hc, eq_comm]
    · rw [if_neg hc]
      simp [hre, hc]

/-- Witness for C4, both directions at concrete states: a rejection at an
exhausted budget and a success below it. -/
theorem claim_C4_witness :
    ((⟨{4}, ⟨[], false⟩, 1⟩ :
        SessionLimiter Nat).track_sessions_unreachable_enr 6 ⟨none, none⟩).1 =
        Except.error Discv5Error.LimitSessionsUnreachableEnr
      ∧ ¬ ((⟨∅, ⟨[], false⟩, 1⟩ :
        SessionLimiter Nat).track_sessions_unreachable_enr 6 ⟨none, none⟩).1 =
        Except.error Discv5Error.LimitSessionsUnreachableEnr :=
  ⟨(claim_C4 ⟨{4}, ⟨[], false⟩, 1⟩ 6 ⟨none, none⟩
      Discv5Error.LimitSessionsUnreachableEnr).mpr
      ⟨by decide, by decide, rfl⟩,
    fun h => by
      have := (claim_C4 ⟨∅, ⟨[], false⟩, 1⟩ 6 ⟨none, none⟩
        Discv5Error.LimitSessionsUnreachableEnr).mp h
      exact absurd this.2.1 (by decide)⟩

/-- C5: the drain loop erases every one of the N pending identities from
the tracker (a no-op for absent ones), empties the pending buffer, always
terminates with no error value, and behaves identically on an exhausted
open channel and on a closed channel. -/
theorem claim_C5 (s : SessionLimiter α) (t : Finset α) (p : List α)
    (lim : Nat) :
    s.drain_expired_sessions_buffer.sessions_unreachable_enr_tracker =
        s.rx_expired_sessions.pending.foldl Finset.erase
          s.sessions_unreachable_enr_tracker
      ∧ (∀ x ∈ s.rx_expired_sessions.pending,
          x ∉ s.drain_expired_sessions_buffer.sessions_unreachable_enr_tracker)
      ∧ s.drain_expired_sessions_buffer.rx_expired_sessions.pending = []
      ∧ (SessionLimiter.drain_expired_sessions_buffer
            ⟨t, ⟨p, true⟩, lim⟩).sessions_unreachable_enr_tracker =
          (SessionLimiter.drain_expired_sessions_buffer
            ⟨t, ⟨p, false⟩, lim⟩).sessions_unreachable_enr_tracker := by
  rw [drain_eq_state, drain_eq, drain_eq]
  exact ⟨rfl, fun x hx => not_mem_foldl_erase _ _ x hx, rfl, rfl⟩

/-- Witness for C5: two pending expiries against a three-element tracker. -/
theorem claim_C5_witness :
    (let s : SessionLimiter Nat := ⟨{1, 2, 3}, ⟨[1, 9], false⟩, 5⟩
    s.drain_expired_sessions_buffer.sessions_unreachable_enr_tracker =
        [1, 9].foldl Finset.erase ({1, 2, 3} : Finset Nat)
      ∧ 1 ∉ s.drain_expired_sessions_buffer.sessions_unreachable_enr_tracker
      ∧ 9 ∉ s.drain_expired_sessions_buffer.sessions_unreachable_enr_tracker
      ∧ s.drain_expired_sessions_buffer.rx_expired_sessions.pending = []) :=
  (fun h => ⟨h.1, h.2.1 1 (by decide), h.2.1 9 (by decide), h.2.2.1⟩)
    (claim_C5 ⟨{1, 2, 3}, ⟨[1, 9], false⟩, 5⟩ ∅ [] 0)

/-- C6: `untrack_session` removes the identity if present, is a no-op when
absent, is idempotent, and when the tracker was at its limit it frees a
slot so that a following unreachable admission succeeds with no expiry
message delivered. -/
theorem claim_C6 (s : SessionLimiter α) (a b : α) (enr : Enr)
    (hpend : s.rx_expired_sessions.pending = [])
    (hfull : s.sessions_unreachable_enr_tracker.card = s.limit)
    (hb : b ∈ s.sessions_unreachable_enr_tracker)
    (hr : enr.reachable = false) :
    (s.untrack_session b).sessions_unreachable_enr_tracker =
        s.sessions_unreachable_enr_tracker.erase b
      ∧ (s.untrack_session b).untrack_session b = s.untrack_session b
      ∧ ((s.untrack_session b).track_sessions_unreachable_enr a enr).1 =
          Except.ok () := by
  refine ⟨rfl, ?_, ?_⟩
  · simp [SessionLimiter.untrack_session, Finset.erase_idem]
  · have hpos : 0 < s.limit := hfull ▸ Finset.card_pos.mpr ⟨b, hb⟩
    have hlt : (s.sessions_unreachable_enr_tracker.erase b).card < s.limit := by
      rw [Finset.card_erase_of_mem hb, hfull]
      exact Nat.sub_lt hpos Nat.one_pos
    rw [track_eq]
    simp only [SessionLimiter.untrack_session, hpend, List.foldl_nil]
    rw [if_neg (by simp [hr]), if_neg (Nat.not_le.mpr hlt)]

/-- Witness for C6: limit 1, tracker `{4}`, releasing 4 then admitting
unreachable peer 8. -/
theorem claim_C6_witness :
    (let s : SessionLimiter Nat := ⟨{4}, ⟨[], false⟩, 1⟩
    (s.untrack_session 4).sessions_unreachable_enr_tracker =
        ({4} : Finset Nat).erase 4
      ∧ (s.untrack_session 4).untrack_session 4 = s.untrack_session 4
      ∧ ((s.untrack_session 4).track_sessions_unreachable_enr
          8 ⟨none, none⟩).1 = Except.ok ()) :=
  claim_C6 ⟨{4}, ⟨[], false⟩, 1⟩ 8 4 ⟨none, none⟩
    (by decide) (by decide) (by decide) (by decide)

/-- C7: with `limit = 0` every unreachable admission attempt is rejected
with `LimitSessionsUnreachableEnr`, while reachable peers still succeed;
constructing a limiter with limit `0` is legal and yields that limit. -/
theorem claim_C7 (s : SessionLimiter α) (a : α) (enrU enrR : Enr)
    (ch : Channel α)
    (hlim : s.limit = 0)
    (hu : enrU.reachable = false)
    (hre : enrR.reachable = true) :
    (s.track_sessions_unreachable_enr a enrU).1 =
        Except.error Discv5Error.LimitSessionsUnreachableEnr
      ∧ (s.track_sessions_unreachable_enr a enrR).1 = Except.ok ()
      ∧ (SessionLimiter.new ch 0).limit = 0
      ∧ (SessionLimiter.new ch 0).sessions_unreachable_enr_tracker = ∅ := by
  refine ⟨?_, ?_, rfl, rfl⟩
  · rw [track_eq]
    rw [if_neg (by simp [hu]), if_pos (hlim ▸ Nat.zero_le _)]
  · rw [track_eq, if_pos hre]

/-- Witness for C7: a zero-limit limiter rejecting unreachable peer 3 and
admitting reachable peer 3. -/
theorem claim_C7_witness :
    (let s : SessionLimiter Nat := SessionLimiter.new ⟨[], false⟩ 0
    (s.track_sessions_unreachable_enr 3 ⟨none, none⟩).1 =
        Except.error Discv5Error.LimitSessionsUnreachableEnr
      ∧ (s.track_sessions_unreachable_enr 3 ⟨none, some 2⟩).1 = Except.ok ()
      ∧ (SessionLimiter.new (α := Nat) ⟨[], false⟩ 0).limit = 0
      ∧ (SessionLimiter.new (α := Nat)
          ⟨[], false⟩ 0).sessions_unreachable_enr_tracker = ∅) :=
  claim_C7 (SessionLimiter.new ⟨[], false⟩ 0) 3 ⟨none, none⟩ ⟨none, some 2⟩
    ⟨[], false⟩ (by decide) (by decide) (by decide)

/-- An ENR advertising no UDP socket at all: an unreachable peer. -/
def unreachableEnr : Enr := ⟨none, none⟩

/-- An ENR advertising a UDP4 socket: a reachable peer. -/
def reachableEnr : Enr := ⟨some 1, none⟩

/-- Scenario start (limit 2, empty tracker, empty open expiry channel). -/
def scenario0 : SessionLimiter Nat := SessionLimiter.new ⟨[], false⟩ 2

/-- Scenario step: admit unreachable peer A (= 0). -/
def scenario1 : Except Discv5Error Unit × SessionLimiter Nat :=
  scenario0.track_sessions_unreachable_enr 0 unreachableEnr

/-- Scenario step: admit unreachable peer B (= 1). -/
def scenario2 : Except Discv5Error Unit × SessionLimiter Nat :=
  scenario1.2.track_sessions_unreachable_enr 1 unreachableEnr

/-- Scenario step: attempt unreachable peer C (= 2) at the limit. -/
def scenario3 : Except Discv5Error Unit × SessionLimiter Nat :=
  scenario2.2.track_sessions_unreachable_enr 2 unreachableEnr

/-- Scenario step: the session-table timer delivers an expiry for A. -/
def scenario3e : SessionLimiter Nat :=
  { scenario3.2 with rx_expired_sessions := ⟨[0], false⟩ }

/-- Scenario step: retry unreachable peer C after A expired. -/
def scenario4 : Except Discv5Error Unit × SessionLimiter Nat :=
  scenario3e.track_sessions_unreachable_enr 2 unreachableEnr

/-- Scenario step: admit reachable peer D (= 3). -/
def scenario5 : Except Discv5Error Unit × SessionLimiter Nat :=
  scenario4.2.track_sessions_unreachable_enr 3 reachableEnr

/-- C8: the limit-2 scenario: A admitted, B admitted, C rejected with the
tracker unchanged, C admitted after A expires, reachable D admitted with
the tracker unchanged. -/
theorem claim_C8 :
    scenario1.1 = Except.ok ()
      ∧ scenario1.2.sessions_unreachable_enr_tracker = {0}
      ∧ scenario2.1 = Except.ok ()
      ∧ scenario2.2.sessions_unreachable_enr_tracker = {0, 1}
      ∧ scenario3.1 = Except.error Discv5Error.LimitSessionsUnreachableEnr
      ∧ scenario3.2.sessions_unreachable_enr_tracker = {0, 1}
      ∧ scenario4.1 = Except.ok ()
      ∧ scenario4.2.sessions_unreachable_enr_tracker = {1, 2}
      ∧ scenario5.1 = Except.ok ()
      ∧ scenario5.2.sessions_unreachable_enr_tracker = {1, 2} := by
  have h1 : scenario1 =
      (Except.ok (), (⟨{0}, ⟨[], false⟩, 2⟩ : SessionLimiter Nat)) := by
    unfold scenario1 scenario0
    rw [track_eq]
    decide
  have h2 : scenario2 =
      (Except.ok (), (⟨{0, 1}, ⟨[], false⟩, 2⟩ : SessionLimiter Nat)) := by
    unfold scenario2
    rw [h1, track_eq]
    decide
  have h3 : scenario3 =
      (Except.error Discv5Error.LimitSessionsUnreachableEnr,
        (⟨{0, 1}, ⟨[], false⟩, 2⟩ : SessionLimiter Nat)) := by
    unfold scenario3
    rw [h2, track_eq]
    decide
  have h3e : scenario3e = (⟨{0, 1}, ⟨[0], false⟩, 2⟩ : SessionLimiter Nat) := by
    unfold scenario3e
    rw [h3]
  have h4 : scenario4 =
      (Except.ok (), (⟨{1, 2}, ⟨[], false⟩, 2⟩ : SessionLimiter Nat)) := by
    unfold scenario4
    rw [h3e, track_eq]
    decide
  have h5 : scenario5 =
      (Except.ok (), (⟨{1, 2}, ⟨[], false⟩, 2⟩ : SessionLimiter Nat)) := by
    unfold scenario5
    rw [h4, track_eq]
    decide
  rw [h1, h2, h3, h4, h5]
  decide

/-- C9: an already-tracked unreachable identity is still rejected when the
tracker is at the limit (the capacity check precedes the insertion and does
not special-case members), while below the limit re-admitting it succeeds
and leaves the tracker and its size unchanged. -/
theorem claim_C9 (s : SessionLimiter α) (a : α) (enr : Enr)
    (hpend : s.rx_expired_sessions.pending = [])
    (ha : a ∈ s.sessions_unreachable_enr_tracker)
    (hr : enr.reachable = false) :
    (s.sessions_unreachable_enr_tracker.card = s.limit →
        (s.track_sessions_unreachable_enr a enr).1 =
            Except.error Discv5Error.LimitSessionsUnreachableEnr
          ∧ (s.track_sessions_unreachable_enr
              a enr).2.sessions_unreachable_enr_tracker =
              s.sessions_unreachable_enr_tracker)
      ∧ (s.sessions_unreachable_enr_tracker.card < s.limit →
        (s.track_sessions_unreachable_enr a enr).1 = Except.ok ()
          ∧ (s.track_sessions_unreachable_enr
              a enr).2.sessions_unreachable_enr_tracker =
              s.sessions_unreachable_enr_tracker
          ∧ (s.track_sessions_unreachable_enr
              a enr).2.sessions_unreachable_enr_tracker.card =
              s.sessions_unreachable_enr_tracker.card) := by
  constructor
  · intro hfull
    rw [track_eq]
    simp only [hpend, List.foldl_nil]
    rw [if_neg (by simp [hr]), if_pos hfull.ge]
    exact ⟨rfl, rfl⟩
  · intro hlt
    rw [track_eq]
    simp only [hpend, List.foldl_nil]
    rw [if_neg (by simp [hr]), if_neg (Nat.not_le.mpr hlt)]
    exact ⟨rfl, Finset.insert_eq_self.mpr ha,
      by rw [Finset.insert_eq_self.mpr ha]⟩

/-- Witness for C9: peer 0 already tracked, once at limit 1 and once under
limit 2. -/
theorem claim_C9_witness :
    (((⟨{0}, ⟨[], false⟩, 1⟩ :
          SessionLimiter Nat).track_sessions_unreachable_enr
          0 ⟨none, none⟩).1 =
        Except.error Discv5Error.LimitSessionsUnreachableEnr
      ∧ ((⟨{0}, ⟨[], false⟩, 2⟩ :
          SessionLimiter Nat).track_sessions_unreachable_enr
          0 ⟨none, none⟩).1 = Except.ok ()) :=
  ⟨((claim_C9 ⟨{0}, ⟨[], false⟩, 1⟩ 0 ⟨none, none⟩
      (by decide) (by decide) (by decide)).1 (by decide)).1,
    ((claim_C9 ⟨{0}, ⟨[], false⟩, 2⟩ 0 ⟨none, none⟩
      (by decide) (by decide) (by decide)).2 (by decide)).1⟩

/-- C10: `new` yields an empty tracker for every limit and every channel
state, and with limit at least 1 the first unreachable admission succeeds
and tracks exactly that peer. -/
theorem claim_C10 (ch : Channel α) (lim : Nat) (a : α) (enr : Enr)
    (hlim : 1 ≤ lim) (hr : enr.reachable = false) :
    (SessionLimiter.new ch
        lim : SessionLimiter α).sessions_unreachable_enr_tracker = ∅
      ∧ ((SessionLimiter.new ch lim).track_sessions_unreachable_enr
          a enr).1 = Except.ok ()
      ∧ ((SessionLimiter.new ch lim).track_sessions_unreachable_enr
          a enr).2.sessions_unreachable_enr_tracker = {a} := by
  have hcard : ¬ lim ≤ (ch.pending.foldl Finset.erase (∅ : Finset α)).card := by
    rw [foldl_erase_empty]
    simp only [Finset.card_empty, Nat.le_zero]
    omega
  refine ⟨rfl, ?_, ?_⟩
  · rw [track_eq]
    dsimp only [SessionLimiter.new]
    rw [if_neg (by simp [hr]), if_neg hcard]
  · rw [track_eq]
    dsimp only [SessionLimiter.new]
    rw [if_neg (by simp [hr]), if_neg hcard]
    show insert a (ch.pending.foldl Finset.erase ∅) = {a}
    rw [foldl_erase_empty]
    simp

/-- Witness for C10: a fresh limiter with limit 1 and a pre-loaded channel
admitting unreachable peer 6. -/
theorem claim_C10_witness :
    (SessionLimiter.new (α := Nat)
        ⟨[3, 4], false⟩ 1).sessions_unreachable_enr_tracker = ∅
      ∧ ((SessionLimiter.new (α := Nat)
          ⟨[3, 4], false⟩ 1).track_sessions_unreachable_enr
          6 ⟨none, none⟩).1 = Except.ok ()
      ∧ ((SessionLimiter.new (α := Nat)
          ⟨[3, 4], false⟩ 1).track_sessions_unreachable_enr
          6 ⟨none, none⟩).2.sessions_unreachable_enr_tracker = {6} :=
  claim_C10 ⟨[3, 4], false⟩ 1 6 ⟨none, none⟩ (by decide) (by decide)

end Limiter
